import Mathlib

/-!
Verification of the pastrami storage layer (`pastrami/database.py`).

The development is a shallow embedding of the `Database` class and its
`TextModel` schema.  Stateful Python code becomes explicit state passing on a
`Database` record; every fallible operation returns an `Except DBError` value
mirroring the exact Python exception class and message raised by the source.

Cryptographic library primitives (hashlib SHA-256, PBKDF2HMAC, Fernet) are
modelled symbolically: strings form a term algebra `Str` whose constructors
record exactly how a string was produced (literal, concatenation, hex digest,
base64-encoded Fernet token, derived key).  Fernet's authenticated decryption
succeeds exactly when the token was produced under the same key — the standard
symbolic reading of authenticated encryption.  Everything else (control flow,
branch conditions, truthiness tests, error messages, transaction rollback) is
translated line by line from the source.

Nondeterminism of the environment is made explicit: the fresh per-record salt
(`str(uuid4())`) is an input, the ambient wall clock is an input (`now`), and
driver-level faults (`DataError`, `OperationalError`, non-unique
`IntegrityError`, engine-level `SQLAlchemyError`) are injected through fault
parameters.
-/

/-- Symbolic model of Python strings as used by the storage layer: a term
algebra recording how each string was produced.  `lit` is an ordinary string
literal, `append` is concatenation (`self.secret + text_id.encode()`),
`sha256hex` is `hashlib.sha256(x).hexdigest()`, `b64fernet key pt` is
`base64.b64encode(Fernet(key).encrypt(pt))`, and `kdfKey n salt pw` is
`base64.urlsafe_b64encode(PBKDF2HMAC(SHA256, 32, salt, n).derive(pw))`. -/
inductive Str where
  | lit (s : String)
  | append (a b : Str)
  | sha256hex (t : Str)
  | b64fernet (key : Str) (plaintext : Str)
  | kdfKey (iterations : Nat) (salt : Str) (password : Str)
deriving DecidableEq, Repr

/-- Python `len(s.strip()) < 1`: true when the string is empty or
whitespace-only (every character is whitespace).  Hex digests, tokens and
derived keys are never blank. -/
def Str.isBlank : Str → Bool
  | .lit s => s.data.all Char.isWhitespace
  | .append a b => a.isBlank && b.isBlank
  | _ => false

/-- Python truthiness of a string/bytes value: false exactly when empty.
Digests, tokens and keys are nonempty. -/
def Str.isEmpty : Str → Bool
  | .lit s => s = ""
  | .append a b => a.isEmpty && b.isEmpty
  | _ => false

/-- Rendering used when a `Str` is interpolated into an f-string message. -/
def Str.render : Str → String
  | .lit s => s
  | .append a b => a.render ++ b.render
  | .sha256hex t => "sha256." ++ t.render
  | .b64fernet k pt => "token." ++ k.render ++ "." ++ pt.render
  | .kdfKey n salt pw => "kdf." ++ toString n ++ "." ++ salt.render ++ "." ++ pw.render

/-- Python truthiness of `self.secret : Optional[bytes]`: `None` and `b""`
are falsy, everything else truthy. -/
def secretTruthy : Option Str → Bool
  | some s => !s.isEmpty
  | none => false

/-- `str(text.salt)` on the nullable `salt` column: Python renders a missing
salt as the string `"None"`. -/
def pySaltStr : Option Str → Str
  | some s => s
  | none => .lit "None"

/-- One row of the `texts` table (class `TextModel`).  The ORM column
`created` has a `default=datetime.now(timezone.utc)` that was evaluated once
at class-definition time; the value actually stored is therefore either the
caller-supplied timestamp or that fixed constant (see `Database.add_text`). -/
structure TextModel where
  text_id : Str
  salt : Option Str
  content : Str
  created : Nat
  expires : Option Nat
deriving DecidableEq, Repr

/-- The `Text` TypedDict passed to and returned by the Record Store.
`created`/`expires` are `Option` because the runtime dict may carry `None`
(the column default then applies at flush time). -/
structure Text where
  text_id : Str
  content : Str
  created : Option Nat
  expires : Option Nat
deriving DecidableEq, Repr

/-- The Python exception escaping a Database operation, by class and
constructor arguments.  `brokenPipe` is `BrokenPipeError`, `valueError` is
`ValueError(msg)`, `duplicatedItem` is `DuplicatedItemException(object_type,
object_id)`, `runtimeError` is `RuntimeError` wrapping a caught driver error,
and `sqlAlchemyError` is an untranslated driver exception that escaped. -/
inductive DBError where
  | brokenPipe (msg : String)
  | valueError (msg : String)
  | duplicatedItem (object_type : String) (object_id : Str)
  | runtimeError (msg : String)
  | sqlAlchemyError (msg : String)
deriving DecidableEq, Repr

/-- Whether the escaping exception is (an instance of) `ValueError`. -/
def DBError.isValueError : DBError → Bool
  | .valueError _ => true
  | _ => false

/-- The async session object held in `self.session`.  `disconnect` calls
`close()` on it but keeps the attribute assigned, which we record in the
`closed` flag. -/
structure Session where
  closed : Bool
deriving DecidableEq, Repr

/-- State of one `Database` instance together with the backing store's rows.
`schemaCreatedDefault` is the constant produced by evaluating
`datetime.now(timezone.utc)` once when the `TextModel` class was defined. -/
structure Database where
  secret : Option Str
  iterations : Nat
  create : Bool
  schemaCreatedDefault : Nat
  session : Option Session
  rows : List TextModel
deriving DecidableEq, Repr

/-- Driver fault injected into a commit inside a transaction.  `noFault`
means the driver itself raises nothing (a uniqueness violation is still
detected from the store's state); the remaining constructors correspond to
SQLAlchemy's `DataError`, `OperationalError` and a non-unique
`IntegrityError`. -/
inductive CommitFault where
  | noFault
  | dataError
  | operationalError
  | integrityNotUnique
deriving DecidableEq, Repr

/-- Engine-level fault injected into `connect`: either table creation fails
with an `OperationalError`, or engine/session construction fails with some
other `SQLAlchemyError`. -/
inductive EngineFault where
  | noEngineFault
  | tableCreateOperationalError
  | engineSQLAlchemyError
deriving DecidableEq, Repr

/-- Characters urlparse accepts inside a URL scheme. -/
def isSchemeChar (c : Char) : Bool :=
  c.isAlphanum || c = '+' || c = '-' || c = '.'

/-- The characters before the first `:`, or `none` when the string has no
`:` at all. -/
def beforeColon : List Char → Option (List Char)
  | [] => none
  | c :: cs => if c = ':' then some [] else (beforeColon cs).map (c :: ·)

/-- `urlparse(url).scheme`: the lowercased prefix before the first `:` when
that prefix is a well-formed scheme (nonempty, leading letter, scheme
characters only), `""` otherwise. -/
def urlScheme (url : String) : String :=
  match beforeColon url.data with
  | some cs =>
      if cs.length > 0 && cs.all isSchemeChar && (cs.headD ' ').isAlpha
      then ⟨cs.map Char.toLower⟩ else ""
  | none => ""

/-- `Database.__init__`: validates the URL scheme (`postgresql` or `sqlite`,
case-insensitively) and otherwise raises
`ValueError('Database can be either "sqlite" or "postgresql", not: "..."')`.
The session attribute starts out as `None`.  `schemaCreatedDefault` is the
import-time clock value captured by the `created` column default. -/
def Database.init (url : String) (secret : Option Str) (iterations : Nat)
    (create : Bool) (schemaCreatedDefault : Nat) : Except DBError Database :=
  let scheme := urlScheme url
  if scheme = "postgresql" || scheme = "sqlite" then
    .ok { secret := secret, iterations := iterations, create := create,
          schemaCreatedDefault := schemaCreatedDefault,
          session := none, rows := [] }
  else
    .error (.valueError
      ("Database can be either \"sqlite\" or \"postgresql\", not: \"" ++ scheme ++ "\""))

/-- `Database.connect`: builds the engine, creates tables when `create` was
requested (an `OperationalError` there is re-raised as `RuntimeError`), and
re-raises any other `SQLAlchemyError` from engine/session construction
unchanged.  On success `self.session` is assigned a fresh open session. -/
def Database.connect (db : Database) (fault : EngineFault) : Except DBError Database :=
  match fault with
  | .engineSQLAlchemyError => .error (.sqlAlchemyError "SQLAlchemyError")
  | .tableCreateOperationalError =>
      if db.create then .error (.runtimeError "OperationalError")
      else .ok { db with session := some { closed := false } }
  | .noEngineFault => .ok { db with session := some { closed := false } }

/-- `Database.disconnect`: closes the session when one exists.  The
`self.session` attribute itself is left assigned (only `close()` is called),
so a disconnected-after-connect instance still holds a session object. -/
def Database.disconnect (db : Database) : Database :=
  match db.session with
  | some _ => { db with session := some { closed := true } }
  | none => db

/-- `Database.__calculate_hash`: SHA-256 hex digest of the text. -/
def Database.calculate_hash (text : Str) : Str :=
  .sha256hex text

/-- `Database.__encrypt`: derives a Fernet key with PBKDF2HMAC-SHA256 over
`secret + text_id` salted with `salt`, encrypts the content, base64-encodes
the token, and returns `(hash(text_id), encrypted_content)`. -/
def Database.encrypt (secret : Str) (iterations : Nat)
    (text_id salt content : Str) : Str × Str :=
  let private_key := Str.kdfKey iterations salt (Str.append secret text_id)
  let encrypted_content := Str.b64fernet private_key content
  (Database.calculate_hash text_id, encrypted_content)

/-- `Database.__decrypt`: re-derives the key the same way and authenticates
the token; `none` models `InvalidToken` (wrong key, wrong salt, or a stored
string that is not a token under that key). -/
def Database.decrypt (secret : Str) (iterations : Nat)
    (text_id salt encrypted_content : Str) : Option Str :=
  let private_key := Str.kdfKey iterations salt (Str.append secret text_id)
  match encrypted_content with
  | .b64fernet k content => if k = private_key then some content else none
  | _ => none

/-- `Database.get_text`: requires a session, hashes the lookup key when
`self.secret is not None`, queries the first row with that `text_id`, raises
`ValueError("Unable to find matching text. Text ID: ...")` when none
matches, decrypts when `self.secret` is truthy (raising
`ValueError("Unable to decrypt content. Text ID: ...")` on `InvalidToken`),
and returns the record under the original plaintext identifier. -/
def Database.get_text (db : Database) (text_id : Str) : Except DBError Text :=
  if db.session.isNone then .error (.brokenPipe "Not connected to the database")
  else
    let original_text_id := text_id
    let key := if db.secret.isSome then Database.calculate_hash text_id else text_id
    match db.rows.find? (fun r => decide (r.text_id = key)) with
    | none =>
        .error (.valueError
          ("Unable to find matching text. Text ID: " ++ original_text_id.render))
    | some row =>
        if secretTruthy db.secret then
          match db.secret with
          | some sec =>
              match Database.decrypt sec db.iterations original_text_id
                      (pySaltStr row.salt) row.content with
              | some content =>
                  .ok { text_id := original_text_id, content := content,
                        created := some row.created, expires := row.expires }
              | none =>
                  .error (.valueError
                    ("Unable to decrypt content. Text ID: " ++ original_text_id.render))
          | none =>
              .ok { text_id := original_text_id, content := row.content,
                    created := some row.created, expires := row.expires }
        else
          .ok { text_id := original_text_id, content := row.content,
                created := some row.created, expires := row.expires }

deriving instance DecidableEq for Except

/-- Result of `Database.add_text`: the returned value or escaping exception,
the post-call store state, and the final state of the caller's `text` dict
(which `add_text` mutates in place in encrypted mode). -/
structure AddResult where
  result : Except DBError Text
  db : Database
  text : Text
deriving DecidableEq, Repr

/-- The in-place mutation `text["text_id"], text["content"] = self.__encrypt(...)`
performed on the caller's dict when `self.secret is not None`. -/
def mutatedText (db : Database) (freshSalt : Str) (text : Text) : Text :=
  match db.secret with
  | some sec =>
      let pair := Database.encrypt sec db.iterations text.text_id freshSalt text.content
      { text with text_id := pair.1, content := pair.2 }
  | none => text

/-- The `salt` keyword argument passed to `TextModel(**text, salt=salt)`:
a fresh `str(uuid4())` in encrypted mode, `None` otherwise. -/
def saltValue (db : Database) (freshSalt : Str) : Option Str :=
  if db.secret.isSome then some freshSalt else none

/-- The ORM row `TextModel(**text, salt=salt)` built by `add_text` from the
(possibly already mutated) dict; a `None` `created` is filled at flush time
by the column default — the constant captured at class definition. -/
def insertedRow (db : Database) (freshSalt : Str) (text : Text) : TextModel :=
  let text' := mutatedText db freshSalt text
  { text_id := text'.text_id, salt := saltValue db freshSalt,
    content := text'.content,
    created := text'.created.getD db.schemaCreatedDefault,
    expires := text'.expires }

/-- `Database.add_text`: session check, emptiness validation of `text_id`
and `content`, in-place encryption of the caller's dict in encrypted mode,
then a transactional insert.  A commit-time `DataError`/`OperationalError`
rolls back and re-raises as `RuntimeError`; an `IntegrityError` rolls back
and raises `DuplicatedItemException("text", original_text_id)` when its
message contains the word `unique` (the primary-key violation case, detected
here from the store's state) and is silently swallowed otherwise.  On
success the function returns `self.get_text(original_text_id)` on the new
state.  `_now` is the ambient wall clock at call time; the source never
reads it (the `created` column default is an import-time constant). -/
def Database.add_text (db : Database) (_now : Nat) (freshSalt : Str)
    (fault : CommitFault) (text : Text) : AddResult :=
  if db.session.isNone then
    { result := .error (.brokenPipe "Not connected to the database"), db := db, text := text }
  else if text.text_id.isBlank then
    { result := .error (.valueError "text_id cannot be empty"), db := db, text := text }
  else if text.content.isBlank then
    { result := .error (.valueError "content cannot be empty"), db := db, text := text }
  else
    let original_text_id := text.text_id
    let text' := mutatedText db freshSalt text
    let db_object := insertedRow db freshSalt text
    match fault with
    | .dataError =>
        { result := .error (.runtimeError "DataError"), db := db, text := text' }
    | .operationalError =>
        { result := .error (.runtimeError "OperationalError"), db := db, text := text' }
    | .integrityNotUnique =>
        { result := Database.get_text db original_text_id, db := db, text := text' }
    | .noFault =>
        if db.rows.any (fun r => decide (r.text_id = db_object.text_id)) then
          { result := .error (.duplicatedItem "text" original_text_id),
            db := db, text := text' }
        else
          let db' := { db with rows := db.rows ++ [db_object] }
          { result := Database.get_text db' original_text_id, db := db', text := text' }

/-- `Database.delete_text`: session check, lookup key hashed when
`self.secret` is truthy, `ValueError` when no row matches, then a
transactional delete with `DataError`/`OperationalError` re-raised as
`RuntimeError` (an `IntegrityError` here is not caught and escapes as the
driver exception). -/
def Database.delete_text (db : Database) (fault : CommitFault)
    (text_id : Str) : Except DBError Unit × Database :=
  if db.session.isNone then (.error (.brokenPipe "Not connected to the database"), db)
  else
    let original_text_id := text_id
    let key := if secretTruthy db.secret then Database.calculate_hash text_id else text_id
    match db.rows.find? (fun r => decide (r.text_id = key)) with
    | none =>
        (.error (.valueError
           ("Unable to find matching text. Text ID: " ++ original_text_id.render)), db)
    | some _ =>
        match fault with
        | .dataError => (.error (.runtimeError "DataError"), db)
        | .operationalError => (.error (.runtimeError "OperationalError"), db)
        | .integrityNotUnique => (.error (.sqlAlchemyError "IntegrityError"), db)
        | .noFault =>
            (.ok (), { db with rows := db.rows.eraseP (fun r => decide (r.text_id = key)) })

/-- SQL predicate `TextModel.expires < now`: strictly before the current
time; a NULL `expires` never satisfies it. -/
def isExpired (now : Nat) (r : TextModel) : Bool :=
  match r.expires with
  | some e => decide (e < now)
  | none => false

/-- `Database.purge_expired`: session check, selects the rows whose
`expires` is strictly before `now`, returns `0` untouched when none match,
otherwise deletes them in one transaction (driver faults as in
`delete_text`) and returns how many were selected. -/
def Database.purge_expired (db : Database) (now : Nat)
    (fault : CommitFault) : Except DBError Nat × Database :=
  if db.session.isNone then (.error (.brokenPipe "Not connected to the database"), db)
  else
    let texts := db.rows.filter (isExpired now)
    if texts.isEmpty then (.ok 0, db)
    else
      match fault with
      | .dataError => (.error (.runtimeError "DataError"), db)
      | .operationalError => (.error (.runtimeError "OperationalError"), db)
      | .integrityNotUnique => (.error (.sqlAlchemyError "IntegrityError"), db)
      | .noFault =>
          (.ok texts.length, { db with rows := db.rows.filter (fun r => !isExpired now r) })

/-! ## Helper lemmas -/

/-- `any` is false when the predicate fails on every element. -/
theorem any_eq_false_of_all {α : Type} (p : α → Bool) (l : List α)
    (h : ∀ a ∈ l, p a = false) : l.any p = false := by
  simp only [List.any_eq_false]
  intro a ha
  simp [h a ha]

/-- The primary key of the row inserted by `add_text` is the identifier
fingerprint in encrypted mode and the plaintext identifier otherwise. -/
theorem insertedRow_text_id (db : Database) (freshSalt : Str) (text : Text) :
    (insertedRow db freshSalt text).text_id
      = (if db.secret.isSome then Database.calculate_hash text.text_id else text.text_id) := by
  cases hsec : db.secret <;>
    simp [insertedRow, mutatedText, Database.encrypt, hsec]

/-- The `created` and `expires` columns of the row inserted by `add_text`
come from the caller's record, with the schema-definition-time constant as
default for a missing `created`. -/
theorem insertedRow_created_expires (db : Database) (freshSalt : Str) (text : Text) :
    (insertedRow db freshSalt text).created = text.created.getD db.schemaCreatedDefault
      ∧ (insertedRow db freshSalt text).expires = text.expires := by
  cases hsec : db.secret <;>
    simp [insertedRow, mutatedText, Database.encrypt, hsec]

/-- Normal form of a successful, fault-free `add_text`: the row is appended
and the result is `get_text` on the new state. -/
theorem add_text_noFault_success (db : Database) (now : Nat) (freshSalt : Str) (text : Text)
    (hconn : db.session.isNone = false)
    (hid : text.text_id.isBlank = false)
    (hcont : text.content.isBlank = false)
    (hnodup : ∀ r ∈ db.rows, r.text_id ≠ (insertedRow db freshSalt text).text_id) :
    Database.add_text db now freshSalt .noFault text
      = { result := Database.get_text
            { db with rows := db.rows ++ [insertedRow db freshSalt text] } text.text_id,
          db := { db with rows := db.rows ++ [insertedRow db freshSalt text] },
          text := mutatedText db freshSalt text } := by
  have hany : db.rows.any
      (fun r => decide (r.text_id = (insertedRow db freshSalt text).text_id)) = false :=
    any_eq_false_of_all _ _ fun r hr => by simp [hnodup r hr]
  simp [Database.add_text, hconn, hid, hcont, hany]

/-- Reading back the freshly appended row returns the plaintext record in
plain mode and in encrypted mode with a non-empty secret. -/
theorem get_text_after_insert (db : Database) (freshSalt : Str) (text : Text)
    (hconn : db.session.isNone = false)
    (hmode : secretTruthy db.secret = db.secret.isSome)
    (hnodup : ∀ r ∈ db.rows, r.text_id ≠ (insertedRow db freshSalt text).text_id) :
    Database.get_text { db with rows := db.rows ++ [insertedRow db freshSalt text] } text.text_id
      = .ok { text_id := text.text_id, content := text.content,
              created := some (text.created.getD db.schemaCreatedDefault),
              expires := text.expires } := by
  cases hsec : db.secret with
  | none =>
      have hnone : db.rows.find? (fun r => decide (r.text_id = text.text_id)) = none := by
        rw [List.find?_eq_none]
        intro r hr
        have h := hnodup r hr
        rw [insertedRow_text_id, hsec] at h
        simpa using h
      simp [Database.get_text, hconn, hsec, hnone, secretTruthy,
            insertedRow, mutatedText, saltValue]
  | some sec =>
      have htruthy : secretTruthy (some sec) = true := by
        rw [← hsec, hmode, hsec]; rfl
      have hne : sec.isEmpty = false := by
        simpa [secretTruthy] using htruthy
      have hnone : db.rows.find?
          (fun r => decide (r.text_id = Database.calculate_hash text.text_id)) = none := by
        rw [List.find?_eq_none]
        intro r hr
        have h := hnodup r hr
        rw [insertedRow_text_id, hsec] at h
        simpa using h
      simp only [Database.calculate_hash] at hnone
      simp [Database.get_text, hconn, hsec, hnone, htruthy, hne, secretTruthy,
            insertedRow, mutatedText, Database.encrypt, Database.decrypt,
            Database.calculate_hash, pySaltStr, saltValue]

/-! ## C1 -/

/-- Connected database instance with an empty-string secret: the claim's
"encrypted mode (secret set)" includes it, since `secret=""` is not `None`. -/
def dbEmptySecret : Database :=
  { secret := some (.lit ""), iterations := 7, create := true,
    schemaCreatedDefault := 42, session := some { closed := false }, rows := [] }

/-- C1 counterexample: with the secret set to the empty string, `add_text`
encrypts (the `is not None` test in `add_text` passes) but `get_text` skips
decryption (the truthiness test `if self.secret:` fails on `b""`), so the
round trip returns the stored base64 token instead of the original content:
the claim fails for this "secret set" instance. -/
theorem C1_counterexample :
    (Database.add_text dbEmptySecret 100 (.lit "s1") .noFault
        { text_id := .lit "id1", content := .lit "hello", created := some 5, expires := none }).result
      = .ok { text_id := .lit "id1",
              content := .b64fernet
                (.kdfKey 7 (.lit "s1") (.append (.lit "") (.lit "id1"))) (.lit "hello"),
              created := some 5, expires := none }
    ∧ Str.b64fernet (.kdfKey 7 (.lit "s1") (.append (.lit "") (.lit "id1"))) (.lit "hello")
        ≠ Str.lit "hello" := by
  exact ⟨by decide, by decide⟩

/-- C1 amended: for every connected instance whose secret is either absent
or non-empty (`hmode` states that the two Python tests `is not None` and
truthiness agree), and every record with non-blank identifier and content
whose storage key is not already taken, `add_text` returns the plaintext
record and `get_text` on the resulting state returns the same plaintext
record: original `text_id`, original `content`. -/
theorem C1_round_trip (db : Database) (now : Nat) (freshSalt : Str) (text : Text)
    (hconn : db.session.isNone = false)
    (hid : text.text_id.isBlank = false)
    (hcont : text.content.isBlank = false)
    (hmode : secretTruthy db.secret = db.secret.isSome)
    (hnodup : ∀ r ∈ db.rows, r.text_id ≠ (insertedRow db freshSalt text).text_id) :
    (Database.add_text db now freshSalt .noFault text).result
      = .ok { text_id := text.text_id, content := text.content,
              created := some (text.created.getD db.schemaCreatedDefault),
              expires := text.expires }
    ∧ Database.get_text (Database.add_text db now freshSalt .noFault text).db text.text_id
      = .ok { text_id := text.text_id, content := text.content,
              created := some (text.created.getD db.schemaCreatedDefault),
              expires := text.expires } := by
  rw [add_text_noFault_success db now freshSalt text hconn hid hcont hnodup]
  exact ⟨get_text_after_insert db freshSalt text hconn hmode hnodup,
         get_text_after_insert db freshSalt text hconn hmode hnodup⟩

/-- Connected encrypted instance with a non-empty secret, empty store. -/
def dbEncrypted : Database :=
  { secret := some (.lit "k"), iterations := 7, create := true,
    schemaCreatedDefault := 42, session := some { closed := false }, rows := [] }

/-- C1 witness: the amended round trip at a concrete encrypted instance. -/
theorem C1_round_trip_witness :
    (Database.add_text dbEncrypted 100 (.lit "s1") .noFault
        { text_id := .lit "id1", content := .lit "hello", created := some 5, expires := none }).result
      = .ok { text_id := .lit "id1", content := .lit "hello",
              created := some 5, expires := none }
    ∧ Database.get_text
        (Database.add_text dbEncrypted 100 (.lit "s1") .noFault
          { text_id := .lit "id1", content := .lit "hello", created := some 5, expires := none }).db
        (.lit "id1")
      = .ok { text_id := .lit "id1", content := .lit "hello",
              created := some 5, expires := none } :=
  C1_round_trip dbEncrypted 100 (.lit "s1")
    { text_id := .lit "id1", content := .lit "hello", created := some 5, expires := none }
    (by decide) (by decide) (by decide) (by decide) (by decide)

/-! ## C2 -/

/-- Encrypted instance holding one row for identifier `x` whose stored token
was produced under a key unrelated to the one re-derived from the stored
salt — the "cannot be authenticated" record (wrong key / corrupted token /
altered salt). -/
def dbCorrupted : Database :=
  { secret := some (.lit "k"), iterations := 7, create := true,
    schemaCreatedDefault := 42, session := some { closed := false },
    rows := [{ text_id := .sha256hex (.lit "x"), salt := some (.lit "s0"),
               content := .b64fernet (.lit "wrongkey") (.lit "c"),
               created := 0, expires := none }] }

/-- The same encrypted instance with an empty store: identifier `x` has no
matching record. -/
def dbMissing : Database :=
  { dbCorrupted with rows := [] }

/-- C2 counterexample: on the same encrypted instance and the same
identifier, the missing-record failure and the undecryptable-record failure
are different `ValueError` values — the messages read "Unable to find
matching text" versus "Unable to decrypt content" — so a caller inspecting
the raised error can distinguish the two branches. -/
theorem C2_counterexample :
    Database.get_text dbMissing (.lit "x")
      = .error (.valueError "Unable to find matching text. Text ID: x")
    ∧ Database.get_text dbCorrupted (.lit "x")
      = .error (.valueError "Unable to decrypt content. Text ID: x")
    ∧ DBError.valueError "Unable to find matching text. Text ID: x"
        ≠ DBError.valueError "Unable to decrypt content. Text ID: x" :=
  ⟨by decide, by decide, by decide⟩

/-- C2 amended: every failure a connected `get_text` raises — record
missing or record undecryptable alike — is a `ValueError`, so the two
branches share the exception class (which is all the HTTP layer inspects,
mapping both to 404), but the attached messages differ. -/
theorem C2_same_exception_class (db : Database) (text_id : Str) (e : DBError)
    (hconn : db.session.isNone = false)
    (he : Database.get_text db text_id = .error e) :
    e.isValueError = true := by
  simp only [Database.get_text, hconn, Bool.false_eq_true, if_false] at he
  split at he
  · simp only [Except.error.injEq] at he
    subst he; rfl
  · split at he
    · split at he
      · split at he
        · simp at he
        · simp only [Except.error.injEq] at he
          subst he; rfl
      · simp at he
    · simp at he

/-- C2 witness: the amended theorem applied to the concrete missing-record
instance. -/
theorem C2_same_exception_class_witness :
    DBError.isValueError (.valueError "Unable to find matching text. Text ID: x") = true :=
  C2_same_exception_class dbMissing (.lit "x")
    (.valueError "Unable to find matching text. Text ID: x") (by decide) (by decide)

/-! ## C3 -/

/-- C3: a fault-free insert that hits an existing storage key raises
`DuplicatedItemException("text", <original plaintext id>)` and leaves the
store unchanged; a commit-time `DataError` or `OperationalError` rolls the
transaction back (store unchanged) and is re-raised as `RuntimeError` — no
driver exception escapes and nothing is persisted on those paths. -/
theorem C3_insert_error_mapping (db : Database) (now : Nat) (freshSalt : Str)
    (fault : CommitFault) (text : Text)
    (hconn : db.session.isNone = false)
    (hid : text.text_id.isBlank = false)
    (hcont : text.content.isBlank = false) :
    ((fault = .noFault
        ∧ db.rows.any
            (fun r => decide (r.text_id = (insertedRow db freshSalt text).text_id)) = true)
      → (Database.add_text db now freshSalt fault text).result
            = .error (.duplicatedItem "text" text.text_id)
        ∧ (Database.add_text db now freshSalt fault text).db = db)
    ∧ (fault = .dataError
      → (Database.add_text db now freshSalt fault text).result
            = .error (.runtimeError "DataError")
        ∧ (Database.add_text db now freshSalt fault text).db = db)
    ∧ (fault = .operationalError
      → (Database.add_text db now freshSalt fault text).result
            = .error (.runtimeError "OperationalError")
        ∧ (Database.add_text db now freshSalt fault text).db = db) := by
  refine ⟨?_, ?_, ?_⟩
  · rintro ⟨hf, hdup⟩
    subst hf
    simp [Database.add_text, hconn, hid, hcont, hdup]
  · intro hf
    subst hf
    simp [Database.add_text, hconn, hid, hcont]
  · intro hf
    subst hf
    simp [Database.add_text, hconn, hid, hcont]

/-- Plain-mode connected instance already holding the record
`"DUPLICATED"`, as in the repository's own test scenario. -/
def dbDup : Database :=
  { secret := none, iterations := 7, create := true, schemaCreatedDefault := 42,
    session := some { closed := false },
    rows := [{ text_id := .lit "DUPLICATED", salt := none, content := .lit "FooBar",
               created := 0, expires := some 0 }] }

/-- C3 witness: inserting `"DUPLICATED"` a second time raises the
duplicated-item exception with the original id and leaves the store as it
was. -/
theorem C3_insert_error_mapping_witness :
    (Database.add_text dbDup 100 (.lit "s1") .noFault
        { text_id := .lit "DUPLICATED", content := .lit "FooBar",
          created := some 0, expires := some 0 }).result
      = .error (.duplicatedItem "text" (.lit "DUPLICATED"))
    ∧ (Database.add_text dbDup 100 (.lit "s1") .noFault
        { text_id := .lit "DUPLICATED", content := .lit "FooBar",
          created := some 0, expires := some 0 }).db
      = dbDup :=
  (C3_insert_error_mapping dbDup 100 (.lit "s1") .noFault
      { text_id := .lit "DUPLICATED", content := .lit "FooBar",
        created := some 0, expires := some 0 }
      (by decide) (by decide) (by decide)).1 ⟨rfl, by decide⟩

/-! ## C4 -/

/-- C4: a connected, fault-free `purge_expired` returns `ok` with exactly
the number of rows whose `expires` is strictly before `now`, leaves exactly
the non-expired rows in the store, and every row with a NULL `expires`
survives.  With no qualifying row the filter is empty, so the call returns
`0` and the store is untouched — the empty store and stores without
NULL-`expires` rows included, since nothing beyond connectedness is
assumed. -/
theorem C4_purge_expired_exact (db : Database) (now : Nat)
    (hconn : db.session.isNone = false) :
    (Database.purge_expired db now .noFault).1
        = .ok (db.rows.filter (isExpired now)).length
    ∧ (Database.purge_expired db now .noFault).2.rows
        = db.rows.filter (fun x => !isExpired now x)
    ∧ ∀ r ∈ db.rows, r.expires = none
        → r ∈ (Database.purge_expired db now .noFault).2.rows := by
  have hmain :
      (Database.purge_expired db now .noFault).1
          = .ok (db.rows.filter (isExpired now)).length
      ∧ (Database.purge_expired db now .noFault).2.rows
          = db.rows.filter (fun x => !isExpired now x) := by
    cases hemp : (db.rows.filter (isExpired now)).isEmpty with
    | true =>
        have hnil : db.rows.filter (isExpired now) = [] := by
          simpa [List.isEmpty_iff] using hemp
        have hall : ∀ x ∈ db.rows, isExpired now x = false := by
          intro x hx
          by_contra hx'
          have hmem : x ∈ db.rows.filter (isExpired now) :=
            List.mem_filter.mpr ⟨hx, by simpa using hx'⟩
          simp [hnil] at hmem
        have hfeq : db.rows.filter (fun x => !isExpired now x) = db.rows :=
          List.filter_eq_self.mpr (by intro a ha; simp [hall a ha])
        simp [Database.purge_expired, hconn, hemp, hfeq, hnil]
    | false =>
        simp [Database.purge_expired, hconn, hemp]
  refine ⟨hmain.1, hmain.2, ?_⟩
  intro r hr hnull
  rw [hmain.2]
  exact List.mem_filter.mpr ⟨hr, by simp [isExpired, hnull]⟩

/-- Store with one expired record, one future record and one NULL-`expires`
record, observed at time 5. -/
def dbPurge : Database :=
  { secret := none, iterations := 7, create := true, schemaCreatedDefault := 42,
    session := some { closed := false },
    rows := [{ text_id := .lit "a", salt := none, content := .lit "c1",
               created := 0, expires := some 3 },
             { text_id := .lit "b", salt := none, content := .lit "c2",
               created := 0, expires := none },
             { text_id := .lit "c", salt := none, content := .lit "c3",
               created := 0, expires := some 9 }] } 

/-- C4 witness: at time 5 exactly the record expiring at 3 is purged, the
NULL-`expires` record `"b"` survives, and on the empty store the same
theorem yields `ok 0` with the store untouched. -/
theorem C4_purge_expired_exact_witness :
    (Database.purge_expired dbPurge 5 .noFault).1
        = .ok (dbPurge.rows.filter (isExpired 5)).length
    ∧ (Database.purge_expired dbPurge 5 .noFault).2.rows
        = dbPurge.rows.filter (fun x => !isExpired 5 x)
    ∧ { text_id := .lit "b", salt := none, content := .lit "c2",
        created := 0, expires := none }
        ∈ (Database.purge_expired dbPurge 5 .noFault).2.rows
    ∧ (Database.purge_expired dbEncrypted 5 .noFault).1
        = .ok (dbEncrypted.rows.filter (isExpired 5)).length :=
  ⟨(C4_purge_expired_exact dbPurge 5 (by decide)).1,
   (C4_purge_expired_exact dbPurge 5 (by decide)).2.1,
   (C4_purge_expired_exact dbPurge 5 (by decide)).2.2
     { text_id := .lit "b", salt := none, content := .lit "c2",
       created := 0, expires := none }
     (by decide) (by decide),
   (C4_purge_expired_exact dbEncrypted 5 (by decide)).1⟩

/-! ## C5 -/

/-- C5: with a blank (empty or whitespace-only) `text_id` or `content`,
`add_text` raises the corresponding `ValueError` before touching the store:
the state is unchanged and nothing is persisted (the caller's record is not
even mutated). -/
theorem C5_validation_rejects_blank (db : Database) (now : Nat) (freshSalt : Str)
    (fault : CommitFault) (text : Text)
    (hconn : db.session.isNone = false)
    (hblank : text.text_id.isBlank = true ∨ text.content.isBlank = true) :
    ((Database.add_text db now freshSalt fault text).result
        = .error (.valueError "text_id cannot be empty")
      ∨ (Database.add_text db now freshSalt fault text).result
        = .error (.valueError "content cannot be empty"))
    ∧ (Database.add_text db now freshSalt fault text).db = db
    ∧ (Database.add_text db now freshSalt fault text).text = text := by
  by_cases hid : text.text_id.isBlank = true
  · simp [Database.add_text, hconn, hid]
  · have hcont : text.content.isBlank = true := by
      rcases hblank with h | h
      · exact absurd h hid
      · exact h
    simp [Database.add_text, hconn, hid, hcont]

/-- C5 witness: a whitespace-only `text_id` on a connected plain-mode
instance is rejected and the store stays empty. -/
theorem C5_validation_rejects_blank_witness :
    ((Database.add_text dbEncrypted 100 (.lit "s1") .noFault
        { text_id := .lit "  ", content := .lit "FooBar",
          created := some 0, expires := none }).result
        = .error (.valueError "text_id cannot be empty")
      ∨ (Database.add_text dbEncrypted 100 (.lit "s1") .noFault
        { text_id := .lit "  ", content := .lit "FooBar",
          created := some 0, expires := none }).result
        = .error (.valueError "content cannot be empty"))
    ∧ (Database.add_text dbEncrypted 100 (.lit "s1") .noFault
        { text_id := .lit "  ", content := .lit "FooBar",
          created := some 0, expires := none }).db
      = dbEncrypted
    ∧ (Database.add_text dbEncrypted 100 (.lit "s1") .noFault
        { text_id := .lit "  ", content := .lit "FooBar",
          created := some 0, expires := none }).text
      = { text_id := .lit "  ", content := .lit "FooBar",
          created := some 0, expires := none } :=
  C5_validation_rejects_blank dbEncrypted 100 (.lit "s1") .noFault
    { text_id := .lit "  ", content := .lit "FooBar",
      created := some 0, expires := none }
    (by decide) (Or.inl (by decide))

/-! ## C6 -/

/-- A plain-mode instance in the connected state. -/
def dbConnected : Database :=
  { secret := none, iterations := 7, create := true, schemaCreatedDefault := 42,
    session := some { closed := false }, rows := [] }

/-- C6 counterexample: `disconnect()` only calls `close()` on the session —
`self.session` stays assigned — so the `if not self.session` guard does not
fire afterwards: `purge_expired` on a disconnected-after-connect instance
completes normally with `0` instead of raising
`BrokenPipeError("Not connected to the database")`. -/
theorem C6_counterexample :
    (Database.disconnect dbConnected).session = some { closed := true }
    ∧ (Database.purge_expired (Database.disconnect dbConnected) 0 .noFault).1 = .ok 0
    ∧ (Database.purge_expired (Database.disconnect dbConnected) 0 .noFault).1
        ≠ .error (.brokenPipe "Not connected to the database") :=
  ⟨by decide, by decide, by decide⟩

/-- C6 amended: the fail-fast guard holds only for the never-connected
state `session = None`: there, every Record Store operation raises
`BrokenPipeError("Not connected to the database")`. -/
theorem C6_not_connected (db : Database) (now : Nat) (freshSalt : Str)
    (fault : CommitFault) (text : Text) (text_id : Str)
    (hdis : db.session = none) :
    (Database.add_text db now freshSalt fault text).result
        = .error (.brokenPipe "Not connected to the database")
    ∧ Database.get_text db text_id
        = .error (.brokenPipe "Not connected to the database")
    ∧ (Database.delete_text db fault text_id).1
        = .error (.brokenPipe "Not connected to the database")
    ∧ (Database.purge_expired db now fault).1
        = .error (.brokenPipe "Not connected to the database") := by
  refine ⟨?_, ?_, ?_, ?_⟩ <;>
    simp [Database.add_text, Database.get_text, Database.delete_text,
          Database.purge_expired, hdis]

/-- A plain-mode instance that was never connected (`session = None`). -/
def dbNeverConnected : Database :=
  { secret := none, iterations := 7, create := true, schemaCreatedDefault := 42,
    session := none, rows := [] }

/-- C6 witness: all four operations on the never-connected instance. -/
theorem C6_not_connected_witness :
    (Database.add_text dbNeverConnected 0 (.lit "s") .noFault
        { text_id := .lit "a", content := .lit "b", created := some 0, expires := none }).result
        = .error (.brokenPipe "Not connected to the database")
    ∧ Database.get_text dbNeverConnected (.lit "a")
        = .error (.brokenPipe "Not connected to the database")
    ∧ (Database.delete_text dbNeverConnected .noFault (.lit "a")).1
        = .error (.brokenPipe "Not connected to the database")
    ∧ (Database.purge_expired dbNeverConnected 0 .noFault).1
        = .error (.brokenPipe "Not connected to the database") :=
  C6_not_connected dbNeverConnected 0 (.lit "s") .noFault
    { text_id := .lit "a", content := .lit "b", created := some 0, expires := none }
    (.lit "a") (by decide)

/-! ## C7 -/

/-- C7 counterexample: the unsupported-scheme `ValueError` is raised by the
constructor — `Database.init` on the test suite's invalid URL fails before
any instance exists — so it is not `connect()` that rejects bad schemes: no
`connect` call is ever reached with an unsupported URL. -/
theorem C7_counterexample :
    Database.init "-> wrong <-://127.0.0.1:65535" none 1200000 true 0
      = .error (.valueError
          "Database can be either \"sqlite\" or \"postgresql\", not: \"\"") := by
  decide

/-- C7 amended: the constructor raises the configuration `ValueError` for
every URL whose scheme is neither `postgresql` nor `sqlite`; `connect()`
raises `RuntimeError` — the storage-unavailable signal — when table
creation fails with an `OperationalError` under `create=True`, re-raises
other engine errors as the untranslated driver exception, and never raises
the configuration `ValueError` itself. -/
theorem C7_connect_errors (url : String) (secret : Option Str) (iterations : Nat)
    (create : Bool) (d : Nat) (db : Database) (fault : EngineFault) (e : DBError)
    (hbad1 : ¬urlScheme url = "postgresql")
    (hbad2 : ¬urlScheme url = "sqlite")
    (hcr : db.create = true)
    (he : Database.connect db fault = .error e) :
    Database.init url secret iterations create d
      = .error (.valueError
          ("Database can be either \"sqlite\" or \"postgresql\", not: \""
            ++ urlScheme url ++ "\""))
    ∧ Database.connect db .tableCreateOperationalError
        = .error (.runtimeError "OperationalError")
    ∧ e.isValueError = false := by
  refine ⟨by simp [Database.init, hbad1, hbad2], by simp [Database.connect, hcr], ?_⟩
  cases fault with
  | noEngineFault => simp [Database.connect] at he
  | tableCreateOperationalError =>
      rw [Database.connect, hcr] at he
      simp only [if_true, Except.error.injEq] at he
      subst he; rfl
  | engineSQLAlchemyError =>
      simp only [Database.connect, Except.error.injEq] at he
      subst he; rfl

/-- Freshly constructed instance with `create=True`, before `connect`. -/
def dbPreConnect : Database :=
  { secret := none, iterations := 1200000, create := true,
    schemaCreatedDefault := 0, session := none, rows := [] }

/-- C7 witness: the amended behavior at the test suite's invalid URL, with
an engine-level failure injected into `connect`. -/
theorem C7_connect_errors_witness :
    Database.init "-> wrong <-://127.0.0.1:65535" none 1200000 true 0
      = .error (.valueError
          ("Database can be either \"sqlite\" or \"postgresql\", not: \""
            ++ urlScheme "-> wrong <-://127.0.0.1:65535" ++ "\""))
    ∧ Database.connect dbPreConnect .tableCreateOperationalError
        = .error (.runtimeError "OperationalError")
    ∧ DBError.isValueError (.sqlAlchemyError "SQLAlchemyError") = false :=
  C7_connect_errors "-> wrong <-://127.0.0.1:65535" none 1200000 true 0
    dbPreConnect .engineSQLAlchemyError (.sqlAlchemyError "SQLAlchemyError")
    (by decide) (by decide) (by decide) (by decide)

/-! ## C8 -/

/-- Rows surviving `delete_text` were already in the store, unchanged: the
operation removes whole rows and never rewrites one. -/
theorem delete_text_rows_subset (db : Database) (fault : CommitFault) (text_id : Str) :
    ∀ r ∈ (Database.delete_text db fault text_id).2.rows, r ∈ db.rows := by
  intro r hr
  unfold Database.delete_text at hr
  cases h1 : db.session.isNone with
  | true => simpa [h1] using hr
  | false =>
      simp only [h1, Bool.false_eq_true, if_false] at hr
      split at hr
      · simpa using hr
      · cases fault with
        | noFault =>
            simp only at hr
            exact (List.eraseP_sublist _).subset hr
        | dataError => simpa using hr
        | operationalError => simpa using hr
        | integrityNotUnique => simpa using hr

/-- Rows surviving `purge_expired` were already in the store, unchanged. -/
theorem purge_expired_rows_subset (db : Database) (now : Nat) (fault : CommitFault) :
    ∀ r ∈ (Database.purge_expired db now fault).2.rows, r ∈ db.rows := by
  intro r hr
  unfold Database.purge_expired at hr
  cases h1 : db.session.isNone with
  | true => simpa [h1] using hr
  | false =>
      simp only [h1, Bool.false_eq_true, if_false] at hr
      split at hr
      · simpa using hr
      · cases fault with
        | noFault =>
            simp only at hr
            exact (List.mem_filter.mp hr).1
        | dataError => simpa using hr
        | operationalError => simpa using hr
        | integrityNotUnique => simpa using hr

/-- C8 counterexample: a record inserted at wall-clock time 100 with
`created = 0` is stored with `created = 0`; one inserted at time 100 with no
`created` value is stored with the class-definition-time constant `42` — in
neither case the time of insertion. -/
theorem C8_counterexample :
    (Database.add_text dbConnected 100 (.lit "s1") .noFault
        { text_id := .lit "a", content := .lit "b",
          created := some 0, expires := none }).db.rows
      = [{ text_id := .lit "a", salt := none, content := .lit "b",
           created := 0, expires := none }]
    ∧ (Database.add_text dbConnected 100 (.lit "s1") .noFault
        { text_id := .lit "c", content := .lit "d",
          created := none, expires := none }).db.rows
      = [{ text_id := .lit "c", salt := none, content := .lit "d",
           created := 42, expires := none }]
    ∧ (0 : Nat) ≠ 100 ∧ (42 : Nat) ≠ 100 :=
  ⟨by decide, by decide, by decide, by decide⟩

/-- C8 amended: `created` is fixed at insertion — it is the caller-supplied
value, or the class-definition-time constant when absent, independent of the
insertion clock — and no later operation rewrites it: `add_text` either
leaves the store unchanged or appends one new row whose `created`/`expires`
come from the input record, and rows surviving `delete_text` or
`purge_expired` (such as `r` and `s`) are exactly rows the store already
held, byte for byte. -/
theorem C8_created_immutable (db : Database) (now : Nat) (freshSalt : Str)
    (fault : CommitFault) (text : Text) (text_id : Str) (r s : TextModel)
    (hdel : r ∈ (Database.delete_text db fault text_id).2.rows)
    (hpurge : s ∈ (Database.purge_expired db now fault).2.rows) :
    ((Database.add_text db now freshSalt fault text).db.rows = db.rows
      ∨ (Database.add_text db now freshSalt fault text).db.rows
          = db.rows ++ [insertedRow db freshSalt text])
    ∧ (insertedRow db freshSalt text).created = text.created.getD db.schemaCreatedDefault
    ∧ (insertedRow db freshSalt text).expires = text.expires
    ∧ r ∈ db.rows ∧ s ∈ db.rows := by
  refine ⟨?_, (insertedRow_created_expires db freshSalt text).1,
          (insertedRow_created_expires db freshSalt text).2,
          delete_text_rows_subset db fault text_id r hdel,
          purge_expired_rows_subset db now fault s hpurge⟩
  cases h1 : db.session.isNone with
  | true => left; simp [Database.add_text, h1]
  | false =>
      cases h2 : text.text_id.isBlank with
      | true => left; simp [Database.add_text, h1, h2]
      | false =>
          cases h3 : text.content.isBlank with
          | true => left; simp [Database.add_text, h1, h2, h3]
          | false =>
              cases fault with
              | dataError => left; simp [Database.add_text, h1, h2, h3]
              | operationalError => left; simp [Database.add_text, h1, h2, h3]
              | integrityNotUnique => left; simp [Database.add_text, h1, h2, h3]
              | noFault =>
                  cases h4 : db.rows.any
                      (fun rr => decide
                        (rr.text_id = (insertedRow db freshSalt text).text_id)) with
                  | true => left; simp [Database.add_text, h1, h2, h3, h4]
                  | false => right; simp [Database.add_text, h1, h2, h3, h4]

/-- C8 witness: the amended statement on the three-record store at time 5,
deleting `"a"` and purging; the NULL-`expires` record `"b"` survives both
and was already stored. -/
theorem C8_created_immutable_witness :
    ((Database.add_text dbPurge 5 (.lit "s1") .noFault
        { text_id := .lit "z", content := .lit "w",
          created := some 1, expires := none }).db.rows = dbPurge.rows
      ∨ (Database.add_text dbPurge 5 (.lit "s1") .noFault
          { text_id := .lit "z", content := .lit "w",
            created := some 1, expires := none }).db.rows
          = dbPurge.rows ++ [insertedRow dbPurge (.lit "s1")
              { text_id := .lit "z", content := .lit "w",
                created := some 1, expires := none }])
    ∧ (insertedRow dbPurge (.lit "s1")
        { text_id := .lit "z", content := .lit "w",
          created := some 1, expires := none }).created
        = (some 1).getD dbPurge.schemaCreatedDefault
    ∧ (insertedRow dbPurge (.lit "s1")
        { text_id := .lit "z", content := .lit "w",
          created := some 1, expires := none }).expires = none
    ∧ { text_id := .lit "b", salt := none, content := .lit "c2",
        created := 0, expires := none } ∈ dbPurge.rows
    ∧ { text_id := .lit "b", salt := none, content := .lit "c2",
        created := 0, expires := none } ∈ dbPurge.rows :=
  C8_created_immutable dbPurge 5 (.lit "s1") .noFault
    { text_id := .lit "z", content := .lit "w", created := some 1, expires := none }
    (.lit "a")
    { text_id := .lit "b", salt := none, content := .lit "c2",
      created := 0, expires := none }
    { text_id := .lit "b", salt := none, content := .lit "c2",
      created := 0, expires := none }
    (by decide) (by decide)

/-! ## C9 -/

/-- C9: in encrypted mode a successful fault-free `add_text` appends
exactly one row: its primary key is the SHA-256 fingerprint of the plaintext
identifier (never the identifier itself), its content is the base64-encoded
authenticated-encryption token of the original content under the key derived
by the salted PBKDF2-SHA256 KDF from `secret ‖ text_id`, and the fresh salt
is persisted with the row. -/
theorem C9_encrypted_row_shape (db : Database) (now : Nat) (freshSalt : Str)
    (text : Text) (sec : Str)
    (hconn : db.session.isNone = false)
    (hid : text.text_id.isBlank = false)
    (hcont : text.content.isBlank = false)
    (hsec : db.secret = some sec)
    (hnodup : ∀ r ∈ db.rows, r.text_id ≠ (insertedRow db freshSalt text).text_id) :
    (Database.add_text db now freshSalt .noFault text).db.rows
      = db.rows ++
        [{ text_id := .sha256hex text.text_id,
           salt := some freshSalt,
           content := .b64fernet
             (.kdfKey db.iterations freshSalt (.append sec text.text_id)) text.content,
           created := text.created.getD db.schemaCreatedDefault,
           expires := text.expires }] := by
  rw [add_text_noFault_success db now freshSalt text hconn hid hcont hnodup]
  simp [insertedRow, mutatedText, saltValue, Database.encrypt,
        Database.calculate_hash, hsec]

/-- C9 witness: the persisted row at the concrete encrypted instance. -/
theorem C9_encrypted_row_shape_witness :
    (Database.add_text dbEncrypted 100 (.lit "s1") .noFault
        { text_id := .lit "id1", content := .lit "hello",
          created := some 5, expires := none }).db.rows
      = dbEncrypted.rows ++
        [{ text_id := .sha256hex (.lit "id1"),
           salt := some (.lit "s1"),
           content := .b64fernet
             (.kdfKey dbEncrypted.iterations (.lit "s1")
               (.append (.lit "k") (.lit "id1"))) (.lit "hello"),
           created := (some 5).getD dbEncrypted.schemaCreatedDefault,
           expires := none }] :=
  C9_encrypted_row_shape dbEncrypted 100 (.lit "s1")
    { text_id := .lit "id1", content := .lit "hello", created := some 5, expires := none }
    (.lit "k") (by decide) (by decide) (by decide) (by decide) (by decide)

/-! ## C10 -/

/-- C10: in encrypted mode `add_text` mutates the caller's record in place:
whatever the commit outcome, after the call the argument holds the
identifier fingerprint in `text_id` and the base64 ciphertext in `content`
in place of the plaintext values. -/
theorem C10_argument_mutation (db : Database) (now : Nat) (freshSalt : Str)
    (fault : CommitFault) (text : Text) (sec : Str)
    (hconn : db.session.isNone = false)
    (hid : text.text_id.isBlank = false)
    (hcont : text.content.isBlank = false)
    (hsec : db.secret = some sec) :
    (Database.add_text db now freshSalt fault text).text
      = { text with
          text_id := .sha256hex text.text_id,
          content := .b64fernet
            (.kdfKey db.iterations freshSalt (.append sec text.text_id)) text.content } := by
  cases fault with
  | noFault =>
      cases h4 : db.rows.any
          (fun r => decide (r.text_id = (insertedRow db freshSalt text).text_id)) with
      | true =>
          simp [Database.add_text, hconn, hid, hcont, h4, mutatedText,
                Database.encrypt, Database.calculate_hash, hsec]
      | false =>
          simp [Database.add_text, hconn, hid, hcont, h4, mutatedText,
                Database.encrypt, Database.calculate_hash, hsec]
  | dataError =>
      simp [Database.add_text, hconn, hid, hcont, mutatedText,
            Database.encrypt, Database.calculate_hash, hsec]
  | operationalError =>
      simp [Database.add_text, hconn, hid, hcont, mutatedText,
            Database.encrypt, Database.calculate_hash, hsec]
  | integrityNotUnique =>
      simp [Database.add_text, hconn, hid, hcont, mutatedText,
            Database.encrypt, Database.calculate_hash, hsec]

/-- C10 witness: the caller's record after a successful encrypted insert
holds the fingerprint and the ciphertext. -/
theorem C10_argument_mutation_witness :
    (Database.add_text dbEncrypted 100 (.lit "s1") .noFault
        { text_id := .lit "id1", content := .lit "hello",
          created := some 5, expires := none }).text
      = { text_id := .sha256hex (.lit "id1"),
          content := .b64fernet
            (.kdfKey dbEncrypted.iterations (.lit "s1")
              (.append (.lit "k") (.lit "id1"))) (.lit "hello"),
          created := some 5, expires := none } :=
  C10_argument_mutation dbEncrypted 100 (.lit "s1") .noFault
    { text_id := .lit "id1", content := .lit "hello", created := some 5, expires := none }
    (.lit "k") (by decide) (by decide) (by decide) (by decide)
